import Mathlib

/-!
Shallow embedding of `src/app.py` (AI-Product-Description-Generator).

The program is a small Flask application.  Its core logic is:
  * `TONE_STYLES` — a fixed dictionary mapping tone keys to a label and an
    instruction string (lines 31–67);
  * `generate_product_description` — keyword normalization, tone lookup,
    prompt composition, call to the OpenAI chat-completions endpoint, and
    response extraction (lines 73–113);
  * the `index` route — form extraction with trimming, validation of the
    product name, the API-key presence check, and translation of any
    exception into one generic flash message (lines 119–164).

Python strings are modelled as Lean `String`s; `str.strip()` as removal of
leading/trailing whitespace characters; `str.split(",")` as the exact
single-character comma splitter (no merging of adjacent separators,
`"".split(",") == [""]`).  The OpenAI client is an opaque boundary, modelled
as a function argument from a request to `Except String ChatResponse`;
`logging.exception` is modelled by recording the logged cause in the result.
-/

namespace App

/-- whitespace characters removed by Python `str.strip()` (ASCII range). -/
def isSpaceChar (c : Char) : Bool :=
  c = ' ' || c = '\t' || c = '\n' || c = '\r' || c = '\x0b' || c = '\x0c'

/-- strip leading and trailing whitespace from a character list. -/
def stripChars (l : List Char) : List Char :=
  List.rdropWhile isSpaceChar (List.dropWhile isSpaceChar l)

/-- model of Python `s.strip()`. -/
def pyStrip (s : String) : String := ⟨stripChars s.data⟩

/-- split a character list at every comma; `[]` maps to `[[]]`, matching
Python `"".split(",") == [""]`; adjacent commas yield empty segments. -/
def splitCommaChars : List Char → List (List Char)
  | [] => [[]]
  | c :: cs =>
    if c = ',' then [] :: splitCommaChars cs
    else
      match splitCommaChars cs with
      | [] => [[c]]
      | s :: ss => (c :: s) :: ss

/-- model of Python `s.split(",")`. -/
def pySplitComma (s : String) : List String :=
  (splitCommaChars s.data).map fun l => ⟨l⟩

/-- model of Python `", ".join(ks)`. -/
def joinCommaSpace : List String → String
  | [] => ""
  | [k] => k
  | k :: ks => k ++ ", " ++ joinCommaSpace ks

/-- one entry of the `TONE_STYLES` dictionary: a display label and a style
instruction (app.py lines 31–67). -/
structure ToneDefinition where
  label : String
  instruction : String
deriving DecidableEq

/-- the `"casual"` entry of `TONE_STYLES` (app.py lines 32–38). -/
def casualTone : ToneDefinition :=
  { label := "Casual"
    instruction := "Write in a friendly, conversational tone, like you\u0027re talking to a friend. Use simple language and a relaxed style." }

/-- the `"professional"` entry of `TONE_STYLES` (app.py lines 39–45). -/
def professionalTone : ToneDefinition :=
  { label := "Professional"
    instruction := "Write in a clear, concise, and professional tone suitable for a corporate audience. Avoid slang and keep it polished." }

/-- the `"enthusiastic"` entry of `TONE_STYLES` (app.py lines 46–52). -/
def enthusiasticTone : ToneDefinition :=
  { label := "Enthusiastic"
    instruction := "Write in an energetic and upbeat tone that builds excitement. Use strong, positive language that makes the product feel irresistible." }

/-- the `"technical"` entry of `TONE_STYLES` (app.py lines 53–59). -/
def technicalTone : ToneDefinition :=
  { label := "Technical"
    instruction := "Write in a technical, detail-oriented tone. Emphasize specifications, performance, and measurable benefits." }

/-- the `"luxury"` entry of `TONE_STYLES` (app.py lines 60–66). -/
def luxuryTone : ToneDefinition :=
  { label := "Luxury"
    instruction := "Write in a premium, luxurious tone. Highlight exclusivity, craftsmanship, and high-end lifestyle benefits." }

/-- the `TONE_STYLES` dictionary as an association list, in source order. -/
def TONE_STYLES : List (String × ToneDefinition) :=
  [("casual", casualTone),
   ("professional", professionalTone),
   ("enthusiastic", enthusiasticTone),
   ("technical", technicalTone),
   ("luxury", luxuryTone)]

/-- model of `TONE_STYLES.get(tone_key, TONE_STYLES["professional"])`
(app.py line 77). -/
def toneGet (tone_key : String) : ToneDefinition :=
  match TONE_STYLES.lookup tone_key with
  | some t => t
  | none => professionalTone

/-- the keyword list of app.py line 81:
`[k.strip() for k in keywords.split(",") if k.strip()]`. -/
def keywordList (keywords : String) : List String :=
  ((pySplitComma keywords).map pyStrip).filter fun k => k != ""

/-- the keyword string of app.py line 82:
`", ".join(keyword_list) if keyword_list else "None"`. -/
def keywordStr (keywords : String) : String :=
  if keywordList keywords = [] then "None" else joinCommaSpace (keywordList keywords)

/-- the fixed system message of app.py lines 84–89 (Python adjacent string
literals concatenated). -/
def system_message : String :=
  "You are an expert retail copywriter specializing in writing product descriptions " ++
  "that increase conversions. Always write in plain text (no markdown). " ++
  "Write 1–3 short paragraphs and optionally 3–5 bullet-style phrases separated by commas " ++
  "for key benefits. Keep the description between 120 and 220 words."

/-- the interpolated user message of app.py lines 91–101. -/
def user_message (product_name : String) (keywords : String) (tone_key : String) : String :=
  "Product name: " ++ product_name ++ "\n" ++
  "Tone: " ++ (toneGet tone_key).label ++ "\n" ++
  "Tone Instructions: " ++ (toneGet tone_key).instruction ++ "\n" ++
  "Keywords to incorporate naturally: " ++ keywordStr keywords ++ "\n\n" ++
  "Write a compelling product description that:\n" ++
  "- Matches the tone described above\n" ++
  "- Naturally weaves in the keywords without sounding forced\n" ++
  "- Focuses on benefits, not just features\n" ++
  "- Speaks directly to retail customers shopping online\n"

/-- one chat message sent to the boundary. -/
structure ChatMessage where
  role : String
  content : String
deriving DecidableEq

/-- one completion candidate of the boundary response
(`response.choices[i]`, with `.message.content` flattened to `content`). -/
structure Choice where
  content : String
deriving DecidableEq

/-- the boundary response: a list of completion candidates. -/
structure ChatResponse where
  choices : List Choice
deriving DecidableEq

/-- the request of `client.chat.completions.create` (app.py lines 103–111). -/
structure ChatRequest where
  model : String
  messages : List ChatMessage
  temperature : ℚ
  max_tokens : Nat
deriving DecidableEq

/-- the ordered system/user message pair of app.py lines 105–108. -/
def build_messages (product_name : String) (keywords : String) (tone_key : String) :
    List ChatMessage :=
  [{ role := "system", content := system_message },
   { role := "user", content := user_message product_name keywords tone_key }]

/-- the full request of app.py lines 103–111: model `"gpt-4o-mini"`,
temperature `0.8`, `max_tokens` 300. -/
def build_request (product_name : String) (keywords : String) (tone_key : String) :
    ChatRequest :=
  { model := "gpt-4o-mini"
    messages := build_messages product_name keywords tone_key
    temperature := 4 / 5
    max_tokens := 300 }

/-- the external boundary: the OpenAI client call, which either returns a
response or raises (modelled as `Except.error` carrying the exception text). -/
def ApiCall : Type := ChatRequest → Except String ChatResponse

/-- model of `generate_product_description` (app.py lines 73–113): build the
request, call the boundary, and return `response.choices[0].message.content.strip()`;
an empty candidate list raises (Python `IndexError` on `choices[0]`). -/
def generate_product_description (callApi : ApiCall)
    (product_name : String) (keywords : String) (tone_key : String) :
    Except String String :=
  match callApi (build_request product_name keywords tone_key) with
  | Except.error e => Except.error e
  | Except.ok resp =>
    match resp.choices with
    | [] => Except.error "IndexError: list index out of range"
    | c :: _ => Except.ok (pyStrip c.content)

/-- the POST form of the `index` route; each field is absent or a string
(`request.form.get`). -/
structure Form where
  product_name : Option String
  keywords : Option String
  tone : Option String

/-- `form_product_name = request.form.get("product_name", "").strip()`
(app.py line 129). -/
def form_product_name (f : Form) : String := pyStrip (f.product_name.getD "")

/-- `form_keywords = request.form.get("keywords", "").strip()`
(app.py line 130). -/
def form_keywords (f : Form) : String := pyStrip (f.keywords.getD "")

/-- `form_tone = request.form.get("tone", "professional")` (app.py line 131):
no strip is applied to the tone field. -/
def form_tone (f : Form) : String := f.tone.getD "professional"

/-- one flash message: text and category. -/
structure Flash where
  message : String
  category : String
deriving DecidableEq

/-- Python truthiness of `not OPENAI_API_KEY` (app.py lines 20 and 136):
the key is missing when the environment variable is absent or empty. -/
def apiKeyMissing : Option String → Bool
  | none => true
  | some s => s == ""

/-- the observable outcome of one POST to the `index` route (app.py lines
128–155): the generated text (absent on any failure), the flash messages
shown, whether the OpenAI boundary was invoked, and the exception logged by
`logging.exception` (absent when nothing was raised). -/
structure PostResult where
  generated_text : Option String
  flashes : List Flash
  apiCalled : Bool
  logged : Option String
deriving DecidableEq

/-- model of the POST branch of `index` (app.py lines 128–155): trim the
form fields, validate the product name, check the API key, then call
`generate_product_description` inside try/except, flashing one generic
message on any exception. -/
def index_post (apiKey : Option String) (callApi : ApiCall) (f : Form) : PostResult :=
  if form_product_name f = "" then
    { generated_text := none
      flashes := [{ message := "Please enter a product name.", category := "warning" }]
      apiCalled := false
      logged := none }
  else if apiKeyMissing apiKey then
    { generated_text := none
      flashes := [{ message := "OpenAI API key is not configured. Please set OPENAI_API_KEY and restart the app.", category := "danger" }]
      apiCalled := false
      logged := none }
  else
    match generate_product_description callApi (form_product_name f) (form_keywords f)
        (form_tone f) with
    | Except.ok text =>
      { generated_text := some text, flashes := [], apiCalled := true, logged := none }
    | Except.error e =>
      { generated_text := none
        flashes := [{ message := "Sorry, something went wrong while generating the description. Please try again.", category := "danger" }]
        apiCalled := true
        logged := some e }

/-- ordered, non-overlapping substring containment: the strings of the list
occur in the given order inside `s`. -/
def containsInOrder : String → List String → Prop
  | _, [] => True
  | s, x :: xs => ∃ a b, s = a ++ x ++ b ∧ containsInOrder b xs


theorem str_append_assoc (a b c : String) : a ++ b ++ c = a ++ (b ++ c) := by
  cases a; cases b; cases c
  exact congrArg String.mk (List.append_assoc _ _ _)

theorem str_append_nil (s : String) : s ++ "" = s := by
  cases s
  exact congrArg String.mk (List.append_nil _)

theorem str_data_append (a b : String) : (a ++ b).data = a.data ++ b.data := by
  cases a; cases b; rfl

theorem dropWhile_stripChars (l : List Char) :
    List.dropWhile isSpaceChar (stripChars l) = stripChars l := by
  rw [stripChars, List.dropWhile_eq_self_iff]
  intro hl
  have hp := List.rdropWhile_prefix isSpaceChar (List.dropWhile isSpaceChar l)
  have hlen : 0 < (List.dropWhile isSpaceChar l).length :=
    lt_of_lt_of_le hl hp.length_le
  have h0 := List.dropWhile_get_zero_not isSpaceChar l hlen
  have he := hp.getElem (n := 0) hl
  simp only [List.get_eq_getElem]
  rw [he]
  simpa [List.get_eq_getElem] using h0

theorem stripChars_idem (l : List Char) : stripChars (stripChars l) = stripChars l := by
  show List.rdropWhile isSpaceChar (List.dropWhile isSpaceChar (stripChars l)) = stripChars l
  rw [dropWhile_stripChars]
  show List.rdropWhile isSpaceChar
      (List.rdropWhile isSpaceChar (List.dropWhile isSpaceChar l)) = stripChars l
  rw [List.rdropWhile_idempotent]
  rfl

theorem pyStrip_idem (s : String) : pyStrip (pyStrip s) = pyStrip s :=
  congrArg String.mk (stripChars_idem s.data)

theorem mem_keywordList {s k : String} (h : k ∈ keywordList s) : k ≠ "" ∧ pyStrip k = k := by
  unfold keywordList at h
  rw [List.mem_filter] at h
  obtain ⟨hm, hne⟩ := h
  rw [List.mem_map] at hm
  obtain ⟨x, _, rfl⟩ := hm
  exact ⟨by simpa using hne, pyStrip_idem x⟩

theorem splitCommaChars_ne_nil (l : List Char) : splitCommaChars l ≠ [] := by
  cases l with
  | nil => simp [splitCommaChars]
  | cons c cs =>
    simp only [splitCommaChars]
    split
    · simp
    · split <;> simp

theorem splitCommaChars_append (a b : List Char) :
    splitCommaChars (a ++ ',' :: b) = splitCommaChars a ++ splitCommaChars b := by
  induction a with
  | nil => simp [splitCommaChars]
  | cons c cs ih =>
    by_cases hc : c = ','
    · subst hc
      rw [List.cons_append]
      simp [splitCommaChars, ih]
    · rw [List.cons_append]
      simp only [splitCommaChars, if_neg hc, ih]
      cases h : splitCommaChars cs with
      | nil => exact absurd h (splitCommaChars_ne_nil cs)
      | cons s ss => simp

theorem pySplitComma_append (s t : String) :
    pySplitComma (s ++ "," ++ t) = pySplitComma s ++ pySplitComma t := by
  unfold pySplitComma
  rw [str_data_append, str_data_append]
  have : (("," : String).data : List Char) = [','] := rfl
  rw [this, List.append_assoc, List.singleton_append, splitCommaChars_append, List.map_append]

theorem keywordList_append (s t : String) :
    keywordList (s ++ "," ++ t) = keywordList s ++ keywordList t := by
  unfold keywordList
  rw [pySplitComma_append, List.map_append, List.filter_append]

theorem cio_here {b : String} {xs : List String} (x : String) (h : containsInOrder b xs) :
    containsInOrder (x ++ b) (x :: xs) :=
  ⟨"", b, rfl, h⟩

theorem cio_skip {s : String} {xs : List String} (a : String) (h : containsInOrder s xs) :
    containsInOrder (a ++ s) xs := by
  match xs, h with
  | [], _ => trivial
  | x :: xs, ⟨a', b, he, h'⟩ =>
    refine ⟨a ++ a', b, ?_, h'⟩
    rw [he]
    simp only [str_append_assoc]

theorem cio_last (x : String) : containsInOrder x [x] :=
  ⟨"", "", (str_append_nil x).symm, trivial⟩

theorem cio_sublist {l₁ l₂ : List String} (hs : List.Sublist l₁ l₂) :
    ∀ {s : String}, containsInOrder s l₂ → containsInOrder s l₁ := by
  induction hs with
  | slnil => intro s h; exact h
  | cons x hsub ih =>
    intro s h
    obtain ⟨a, b, he, h'⟩ := h
    subst he
    rw [str_append_assoc]
    exact cio_skip _ (cio_skip _ (ih h'))
  | cons₂ x hsub ih =>
    intro s h
    obtain ⟨a, b, he, h'⟩ := h
    exact ⟨a, b, he, ih h'⟩

theorem user_message_decomp (p kw tk : String) :
    user_message p kw tk =
      "Product name: " ++ (p ++ ("\n" ++ ("Tone: " ++ ((toneGet tk).label ++ ("\n" ++
      ("Tone Instructions: " ++ ((toneGet tk).instruction ++ ("\n" ++
      ("Keywords to incorporate naturally: " ++ (keywordStr kw ++ ("\n\n" ++
      ("Write a compelling product description that:\n" ++
      ("- Matches the tone described above\n" ++
      ("- Naturally weaves in the keywords without sounding forced\n" ++
      ("- Focuses on benefits, not just features\n" ++
      "- Speaks directly to retail customers shopping online\n"))))))))))))))) := by
  simp only [user_message, str_append_assoc]

/-- C1: keyword normalization splits on commas, trims each segment, drops empty
segments, preserves order without deduplication (appending a copy of the raw
string after a comma duplicates the keyword list), the resulting list has no
empty or whitespace-only element, and an empty list puts the literal
placeholder "None" into the composed prompt's keyword clause. -/
theorem keyword_normalization_ok (s p t : String) :
    (∀ k ∈ keywordList s, k ≠ "" ∧ pyStrip k = k) ∧
    keywordList (s ++ "," ++ s) = keywordList s ++ keywordList s ∧
    (keywordList s = [] → keywordStr s = "None" ∧
      containsInOrder (user_message p s t) ["Keywords to incorporate naturally: None"]) := by
  refine ⟨fun k hk => mem_keywordList hk, keywordList_append s s, fun h => ⟨?_, ?_⟩⟩
  · rw [keywordStr, if_pos h]
  · have hks : keywordStr s = "None" := by rw [keywordStr, if_pos h]
    rw [user_message_decomp, hks]
    apply cio_skip
    apply cio_skip
    apply cio_skip
    apply cio_skip
    apply cio_skip
    apply cio_skip
    apply cio_skip
    apply cio_skip
    apply cio_skip
    exact ⟨"", "\n\n" ++ ("Write a compelling product description that:\n" ++
      ("- Matches the tone described above\n" ++
      ("- Naturally weaves in the keywords without sounding forced\n" ++
      ("- Focuses on benefits, not just features\n" ++
      "- Speaks directly to retail customers shopping online\n")))), rfl, trivial⟩

theorem keyword_normalization_ok_witness :
    keywordStr " , ,, " = "None" ∧
    containsInOrder (user_message "Desk Lamp" " , ,, " "unknown_tone_xyz")
      ["Keywords to incorporate naturally: None"] :=
  (keyword_normalization_ok " , ,, " "Desk Lamp" "unknown_tone_xyz").2.2 (by decide)

/-- C2: tone lookup is a total function with a default: for every string
identifier it returns one of the five fixed tone definitions, and any
identifier outside the fixed key set resolves to the professional definition. -/
theorem tone_lookup_total (k : String) :
    toneGet k ∈ [casualTone, professionalTone, enthusiasticTone, technicalTone, luxuryTone] ∧
    (k ∉ ["casual", "professional", "enthusiastic", "technical", "luxury"] →
      toneGet k = professionalTone) := by
  by_cases h1 : k = "casual"
  · subst h1; exact ⟨by decide, fun hk => absurd (by decide) hk⟩
  by_cases h2 : k = "professional"
  · subst h2; exact ⟨by decide, fun hk => absurd (by decide) hk⟩
  by_cases h3 : k = "enthusiastic"
  · subst h3; exact ⟨by decide, fun hk => absurd (by decide) hk⟩
  by_cases h4 : k = "technical"
  · subst h4; exact ⟨by decide, fun hk => absurd (by decide) hk⟩
  by_cases h5 : k = "luxury"
  · subst h5; exact ⟨by decide, fun hk => absurd (by decide) hk⟩
  have hl : TONE_STYLES.lookup k = none := by
    have e1 : (k == "casual") = false := by simp [h1]
    have e2 : (k == "professional") = false := by simp [h2]
    have e3 : (k == "enthusiastic") = false := by simp [h3]
    have e4 : (k == "technical") = false := by simp [h4]
    have e5 : (k == "luxury") = false := by simp [h5]
    simp [TONE_STYLES, List.lookup, e1, e2, e3, e4, e5]
  have ht : toneGet k = professionalTone := by rw [toneGet, hl]
  exact ⟨by rw [ht]; decide, fun _ => ht⟩

theorem tone_lookup_total_witness :
    toneGet "" ∈ [casualTone, professionalTone, enthusiasticTone, technicalTone, luxuryTone] ∧
    toneGet "" = professionalTone :=
  ⟨(tone_lookup_total "").1, (tone_lookup_total "").2 (by decide)⟩

/-- C3: any exception signalled by the generation path is caught by the route,
logged with its full detail, and surfaced only as the fixed generic flash
message that does not depend on the underlying cause; the generated text is
absent on failure, never a truncated description. -/
theorem generation_error_opaque (key : Option String) (callApi : ApiCall) (f : Form)
    (e : String) (hname : form_product_name f ≠ "") (hkey : apiKeyMissing key = false)
    (herr : generate_product_description callApi (form_product_name f) (form_keywords f)
      (form_tone f) = Except.error e) :
    index_post key callApi f =
      { generated_text := none
        flashes := [{ message := "Sorry, something went wrong while generating the description. Please try again.", category := "danger" }]
        apiCalled := true
        logged := some e } := by
  unfold index_post
  rw [if_neg hname, if_neg (by simp [hkey]), herr]

theorem generation_error_opaque_witness :
    index_post (some "sk-test") (fun _ => Except.error "ConnectionError: network is down")
      ⟨some "Desk Lamp", some "modern, minimalist", some "casual"⟩ =
      { generated_text := none
        flashes := [{ message := "Sorry, something went wrong while generating the description. Please try again.", category := "danger" }]
        apiCalled := true
        logged := some "ConnectionError: network is down" } :=
  generation_error_opaque (some "sk-test") (fun _ => Except.error "ConnectionError: network is down")
    ⟨some "Desk Lamp", some "modern, minimalist", some "casual"⟩
    "ConnectionError: network is down" (by decide) (by decide) rfl

/-- C5: a submission whose product name trims to the empty string is rejected
before the core generate operation: the route flashes the validation message,
produces no text, and never invokes the external boundary. -/
theorem empty_product_name_blocks_call (key : Option String) (callApi : ApiCall) (f : Form)
    (hname : form_product_name f = "") :
    index_post key callApi f =
      { generated_text := none
        flashes := [{ message := "Please enter a product name.", category := "warning" }]
        apiCalled := false
        logged := none } := by
  unfold index_post
  rw [if_pos hname]

theorem empty_product_name_blocks_call_witness :
    index_post (some "sk-test") (fun _ => Except.ok ⟨[⟨"text"⟩]⟩)
      ⟨some "   ", some "modern", some "casual"⟩ =
      { generated_text := none
        flashes := [{ message := "Please enter a product name.", category := "warning" }]
        apiCalled := false
        logged := none } :=
  empty_product_name_blocks_call (some "sk-test") (fun _ => Except.ok ⟨[⟨"text"⟩]⟩)
    ⟨some "   ", some "modern", some "casual"⟩ (by decide)

/-- C6: when the API credential is absent (or empty), every submission with a
non-empty product name is pre-empted by the configuration check: the route
flashes the configuration-specific message, produces no text, and never calls
the generate operation, so no attempt can succeed. -/
theorem missing_api_key_blocks_call (key : Option String) (callApi : ApiCall) (f : Form)
    (hname : form_product_name f ≠ "") (hkey : apiKeyMissing key = true) :
    index_post key callApi f =
      { generated_text := none
        flashes := [{ message := "OpenAI API key is not configured. Please set OPENAI_API_KEY and restart the app.", category := "danger" }]
        apiCalled := false
        logged := none } := by
  unfold index_post
  rw [if_neg hname, if_pos hkey]

theorem missing_api_key_blocks_call_witness :
    index_post none (fun _ => Except.ok ⟨[⟨"text"⟩]⟩)
      ⟨some "Desk Lamp", some "modern", some "casual"⟩ =
      { generated_text := none
        flashes := [{ message := "OpenAI API key is not configured. Please set OPENAI_API_KEY and restart the app.", category := "danger" }]
        apiCalled := false
        logged := none } :=
  missing_api_key_blocks_call none (fun _ => Except.ok ⟨[⟨"text"⟩]⟩)
    ⟨some "Desk Lamp", some "modern", some "casual"⟩ (by decide) (by decide)

/-- C9: when the boundary returns a response with a non-empty candidate list,
the generate operation returns exactly the first candidate's text content with
leading and trailing whitespace trimmed, and the result does not depend on any
candidate beyond the first. -/
theorem response_extraction_first_choice :
    (∀ (callApi : ApiCall) (p k t : String) (c : Choice) (rest : List Choice),
      callApi (build_request p k t) = Except.ok ⟨c :: rest⟩ →
      generate_product_description callApi p k t = Except.ok (pyStrip c.content)) ∧
    (∀ (p k t : String) (c : Choice) (l₁ l₂ : List Choice),
      generate_product_description (fun _ => Except.ok ⟨c :: l₁⟩) p k t =
        generate_product_description (fun _ => Except.ok ⟨c :: l₂⟩) p k t) := by
  constructor
  · intro callApi p k t c rest h
    unfold generate_product_description
    rw [h]
  · intro p k t c l₁ l₂
    rfl

theorem response_extraction_first_choice_witness :
    generate_product_description (fun _ => Except.ok ⟨[⟨"  A great lamp.  "⟩, ⟨"ignored"⟩]⟩)
      "Desk Lamp" "modern" "casual" = Except.ok "A great lamp." :=
  response_extraction_first_choice.1 (fun _ => Except.ok ⟨[⟨"  A great lamp.  "⟩, ⟨"ignored"⟩]⟩)
    "Desk Lamp" "modern" "casual" ⟨"  A great lamp.  "⟩ [⟨"ignored"⟩] rfl

/-- C10: the literal keyword input "None" is indistinguishable from an empty
keyword list: whenever the raw keyword string normalizes to the empty list,
the composed system/user message pair is byte-identical to the one composed
for the raw keyword string "None". -/
theorem none_keyword_indistinguishable (p t s : String) (h : keywordList s = []) :
    build_messages p s t = build_messages p "None" t := by
  have h1 : keywordStr s = "None" := by rw [keywordStr, if_pos h]
  have h2 : keywordStr "None" = "None" := by decide
  unfold build_messages user_message
  rw [h1, h2]

theorem none_keyword_indistinguishable_witness :
    build_messages "Wireless Earbuds" "" "enthusiastic" =
      build_messages "Wireless Earbuds" "None" "enthusiastic" :=
  none_keyword_indistinguishable "Wireless Earbuds" "enthusiastic" "" (by decide)

/-- C4: the composed user message interpolates, in order, the product name,
the tone label, the tone instruction, the keyword string, and then the four
fixed directives; in particular the Wireless Earbuds / enthusiastic scenario
contains "Wireless Earbuds", "Enthusiastic", the enthusiastic instruction
text and "noise cancelling, 20h battery" verbatim, in that order. -/
theorem user_message_field_order :
    (∀ p kw tk, containsInOrder (user_message p kw tk)
      [p, (toneGet tk).label, (toneGet tk).instruction, keywordStr kw,
       "- Matches the tone described above\n",
       "- Naturally weaves in the keywords without sounding forced\n",
       "- Focuses on benefits, not just features\n",
       "- Speaks directly to retail customers shopping online\n"]) ∧
    containsInOrder
      (user_message "Wireless Earbuds" "noise cancelling, 20h battery" "enthusiastic")
      ["Wireless Earbuds", "Enthusiastic", enthusiasticTone.instruction,
       "noise cancelling, 20h battery"] := by
  have huniv : ∀ p kw tk, containsInOrder (user_message p kw tk)
      [p, (toneGet tk).label, (toneGet tk).instruction, keywordStr kw,
       "- Matches the tone described above\n",
       "- Naturally weaves in the keywords without sounding forced\n",
       "- Focuses on benefits, not just features\n",
       "- Speaks directly to retail customers shopping online\n"] := by
    intro p kw tk
    rw [user_message_decomp]
    apply cio_skip
    apply cio_here
    apply cio_skip
    apply cio_skip
    apply cio_here
    apply cio_skip
    apply cio_skip
    apply cio_here
    apply cio_skip
    apply cio_skip
    apply cio_here
    apply cio_skip
    apply cio_skip
    apply cio_here
    apply cio_here
    apply cio_here
    exact cio_last _
  refine ⟨huniv, ?_⟩
  have h := huniv "Wireless Earbuds" "noise cancelling, 20h battery" "enthusiastic"
  have h1 : toneGet "enthusiastic" = enthusiasticTone := by decide
  have h2 : keywordStr "noise cancelling, 20h battery" = "noise cancelling, 20h battery" := by
    decide
  have h3 : enthusiasticTone.label = "Enthusiastic" := rfl
  rw [h1, h2, h3] at h
  exact cio_sublist (List.sublist_append_left _ _) h

/-- C7 counterexample: the generate operation does not trim the product name —
at the untrimmed input " Desk Lamp " the composed user message differs from the
message composed for the trimmed name, so trimming is not part of the core's
normalization. -/
theorem core_trim_counterexample :
    ¬ user_message " Desk Lamp " "" "professional" =
        user_message (pyStrip " Desk Lamp ") "" "professional" := by decide

/-- C7 (amended): the generate operation interpolates the product name
verbatim, untrimmed, directly after "Product name: "; trimming happens in the
caller — the route's behaviour depends on the boundary only at the request
built from the trimmed form fields. -/
theorem product_name_trimmed_by_caller :
    (∀ p kw tk, ∃ rest, user_message p kw tk = "Product name: " ++ p ++ rest) ∧
    (∀ (key : Option String) (f : Form) (c₁ c₂ : ApiCall),
      c₁ (build_request (form_product_name f) (form_keywords f) (form_tone f)) =
        c₂ (build_request (form_product_name f) (form_keywords f) (form_tone f)) →
      index_post key c₁ f = index_post key c₂ f) := by
  constructor
  · intro p kw tk
    refine ⟨"\n" ++ ("Tone: " ++ ((toneGet tk).label ++ ("\n" ++
      ("Tone Instructions: " ++ ((toneGet tk).instruction ++ ("\n" ++
      ("Keywords to incorporate naturally: " ++ (keywordStr kw ++ ("\n\n" ++
      ("Write a compelling product description that:\n" ++
      ("- Matches the tone described above\n" ++
      ("- Naturally weaves in the keywords without sounding forced\n" ++
      ("- Focuses on benefits, not just features\n" ++
      "- Speaks directly to retail customers shopping online\n"))))))))))))), ?_⟩
    rw [user_message_decomp]
    simp only [str_append_assoc]
  · intro key f c₁ c₂ hagree
    unfold index_post
    by_cases h1 : form_product_name f = ""
    · rw [if_pos h1, if_pos h1]
    · rw [if_neg h1, if_neg h1]
      by_cases h2 : apiKeyMissing key = true
      · rw [if_pos h2, if_pos h2]
      · rw [if_neg h2, if_neg h2]
        unfold generate_product_description
        rw [hagree]

set_option maxRecDepth 8192 in
theorem product_name_trimmed_by_caller_witness :
    index_post (some "sk-test") (fun _ => Except.error "boom")
      ⟨some " Desk Lamp ", some "", some "casual"⟩ =
      index_post (some "sk-test")
        (fun r => if r = build_request "Desk Lamp" "" "casual"
          then Except.error "boom" else Except.ok ⟨[]⟩)
      ⟨some " Desk Lamp ", some "", some "casual"⟩ :=
  product_name_trimmed_by_caller.2 (some "sk-test")
    ⟨some " Desk Lamp ", some "", some "casual"⟩
    (fun _ => Except.error "boom")
    (fun r => if r = build_request "Desk Lamp" "" "casual"
      then Except.error "boom" else Except.ok ⟨[]⟩)
    (by
      have h1 : form_product_name ⟨some " Desk Lamp ", some "", some "casual"⟩ = "Desk Lamp" := by
        decide
      have h2 : form_keywords ⟨some " Desk Lamp ", some "", some "casual"⟩ = "" := by decide
      have h3 : form_tone ⟨some " Desk Lamp ", some "", some "casual"⟩ = "casual" := rfl
      show Except.error "boom" =
        if build_request (form_product_name ⟨some " Desk Lamp ", some "", some "casual"⟩)
            (form_keywords ⟨some " Desk Lamp ", some "", some "casual"⟩)
            (form_tone ⟨some " Desk Lamp ", some "", some "casual"⟩) =
          build_request "Desk Lamp" "" "casual"
        then Except.error "boom" else Except.ok ⟨[]⟩
      rw [h1, h2, h3, if_pos rfl])

/-- C8 counterexample: the tone identifier is not trimmed anywhere: the route
passes the raw form value through, and " casual" is not a key of the tone
table, so it resolves to the professional default rather than to the casual
definition. -/
theorem tone_whitespace_counterexample :
    form_tone ⟨some "Desk Lamp", some "", some " casual"⟩ = " casual" ∧
    toneGet " casual" = professionalTone ∧ professionalTone ≠ casualTone := by decide

/-- C8 (amended): the product name and keyword fields are trimmed by the
caller (they are fixed points of trimming), but the tone identifier is not
trimmed by the caller or the core: " casual" falls through to the professional
default, while an absent tone field also maps to the default. -/
theorem tone_not_trimmed_default :
    (∀ f : Form, pyStrip (form_product_name f) = form_product_name f ∧
      pyStrip (form_keywords f) = form_keywords f) ∧
    (∀ f : Form, f.tone = some " casual" → toneGet (form_tone f) = professionalTone) ∧
    (∀ f : Form, f.tone = none → toneGet (form_tone f) = professionalTone) := by
  refine ⟨fun f => ⟨pyStrip_idem _, pyStrip_idem _⟩, fun f h => ?_, fun f h => ?_⟩
  · rw [form_tone, h]
    decide
  · rw [form_tone, h]
    decide

theorem tone_not_trimmed_default_witness :
    (pyStrip (form_product_name ⟨some " Desk Lamp ", some " a, b ", some " casual"⟩) =
      form_product_name ⟨some " Desk Lamp ", some " a, b ", some " casual"⟩) ∧
    toneGet (form_tone ⟨some " Desk Lamp ", some " a, b ", some " casual"⟩) =
      professionalTone ∧
    toneGet (form_tone ⟨some "Desk Lamp", some "", none⟩) = professionalTone :=
  ⟨(tone_not_trimmed_default.1 ⟨some " Desk Lamp ", some " a, b ", some " casual"⟩).1,
   tone_not_trimmed_default.2.1 ⟨some " Desk Lamp ", some " a, b ", some " casual"⟩ rfl,
   tone_not_trimmed_default.2.2 ⟨some "Desk Lamp", some "", none⟩ rfl⟩

end App
